import Mathlib

/-!
Verification development for the anp-go repository (DID-WBA authentication).

The Go sources are shallowly embedded in Lean:

* Pure Go functions become Lean functions over `String` / `List Char` / `Int`.
* Go `time.Time` values are modelled as `Int` instants (seconds); `time.Duration`
  values as `Int` numbers of seconds.  The comparisons `After`, `Sub` and `Add`
  of the Go code translate to `<` / `-` / `+` on `Int`.
* The external cryptographic primitives from Go's standard library
  (`crypto/sha256`, `crypto/ecdsa`) are modelled symbolically, in the usual
  Dolev-Yao style: a SHA-256 digest is a constructor tree (`Digest`), which
  encodes collision resistance as constructor injectivity, and an ECDSA
  signature verifies exactly when it was produced by the matching private key
  over exactly the digest being checked (EUF-CMA idealisation plus correctness
  of `ecdsa.Sign` / `ecdsa.Verify`).
* The external JSON/JCS libraries (`bytedance/sonic`,
  `webpki.org/jsoncanonicalizer`) are modelled by emitting the canonical
  RFC 8785 serialisation of the fixed four-field signing payload directly:
  members sorted by key (`did` < `nonce` < `service` < `timestamp`), values
  being plain ASCII strings that need no escaping for the alphabets in use.
* Stateful code (nonce validator, DID cache) is modelled by explicit state
  passing; the injected clock (`config.Now`) becomes an explicit `now : Int`
  argument.  Mutex-protected sections are modelled sequentially.
* Fallible Go code returning `(T, error)` becomes `Except`/`Option`.

Each definition cites the Go function it embeds.
-/

/- ===================================================================
   Symbolic model of crypto/sha256 and crypto/ecdsa (Go standard library)
   =================================================================== -/

/-- Symbolic SHA-256 digest.  `sha256OfStr s` is the digest of the raw bytes of
`s` (Go `sha256.Sum256(data)` applied to message bytes); `sha256OfDigest d` is
the digest of the 32 digest bytes of `d` (Go `sha256.Sum256(digest[:])`).
Constructor injectivity models collision resistance. -/
inductive Digest where
  | sha256OfStr (s : String)
  | sha256OfDigest (d : Digest)
deriving DecidableEq, Repr

/-- Symbolic secp256k1 private key (an atom; actual key generation randomness
is external to the embedded code). -/
structure PrivateKey where
  keyId : Nat
deriving DecidableEq, Repr

/-- Symbolic secp256k1 public key. -/
structure PublicKey where
  keyId : Nat
deriving DecidableEq, Repr

/-- The public key corresponding to a private key (`privateKey.PublicKey`). -/
def publicKeyOf (k : PrivateKey) : PublicKey :=
  ⟨k.keyId⟩

/-- Symbolic ECDSA signature: the `(r, s)` pair produced by `ecdsa.Sign`
determines the signing key and the exact digest that was signed. -/
structure ECSignature where
  signerKeyId : Nat
  signedDigest : Digest
deriving DecidableEq, Repr

/-- Model of `ecdsa.Sign(rand.Reader, privateKey, digest)`: in the symbolic
model the signature records the key and the digest.  (The randomness of the
nonce `k` is irrelevant to verification and is omitted.) -/
def ecdsaSign (privateKey : PrivateKey) (digest : Digest) : ECSignature :=
  ⟨privateKey.keyId, digest⟩

/-- Model of `ecdsa.Verify(publicKey, digest, r, s)`: verification succeeds
exactly when the signature was produced with the matching private key over
exactly this digest. -/
def ecdsaVerify (publicKey : PublicKey) (digest : Digest) (signature : ECSignature) : Bool :=
  if signature.signerKeyId = publicKey.keyId ∧ signature.signedDigest = digest then true
  else false

/- ===================================================================
   Signing payload (anp_auth: authPayload, logger_interface.go)
   =================================================================== -/

/-- `authPayload` (src/anp_auth/logger_interface.go): the four-field signing
payload.  Field `time` carries the JSON key `timestamp` exactly as the Go
struct tag does. -/
structure authPayload where
  nonce : String
  time : String
  service : String
  did : String
deriving DecidableEq, Repr

/-- The result of `authPayload.marshal`: `sonic.Marshal` followed by
`jsoncanonicalizer.Transform` (RFC 8785).  For this fixed four-member object
the canonical form lists the members sorted by key
(`did` < `nonce` < `service` < `timestamp`); the field values used by the
protocol (UUIDs, RFC 3339 timestamps, domains, DIDs) need no JSON escaping. -/
def authPayload.marshal (p : authPayload) : String :=
  "\x7b\"did\":\"" ++ p.did ++ "\",\"nonce\":\"" ++ p.nonce ++
    "\",\"service\":\"" ++ p.service ++ "\",\"timestamp\":\"" ++ p.time ++ "\"\x7d"

/-- `signPayload` (src/anp_auth/logger_interface.go lines 468-490): marshal the
payload, hash it **twice** with SHA-256, then ECDSA-sign the second digest.
The Go code reads:
`digest := sha256.Sum256(data); finalDigest := sha256.Sum256(digest[:]);`
`ecdsa.Sign(rand.Reader, privateKey, finalDigest[:])`.
The wire encoding of the resulting `(r, s)` pair (`marshalSignature`:
fixed-width big-endian R and S, base64url) is an external injective encoding
and is kept symbolic. -/
def signPayload (privateKey : PrivateKey) (payload : authPayload) : ECSignature :=
  ecdsaSign privateKey (Digest.sha256OfDigest (Digest.sha256OfStr payload.marshal))

/-- `EcdsaSecp256k1VerificationKey2019.VerifySignature`
(src/unnamed/part_003 lines 35-50) after the base64url/`unmarshalSignature`
decoding step: hash the content **once** with SHA-256 and call `ecdsa.Verify`.
The Go code reads: `digest := sha256.Sum256(content);`
`ecdsa.Verify(v.PublicKey, digest[:], r, s)`. -/
def EcdsaSecp256k1VerifySignature (publicKey : PublicKey) (content : String)
    (signature : ECSignature) : Bool :=
  ecdsaVerify publicKey (Digest.sha256OfStr content) signature

/-- The verification step the specification describes instead (two SHA-256
rounds before `ecdsa.Verify`), stated for comparison with
`EcdsaSecp256k1VerifySignature`.  Modelled from the spec: "Verification
applies the same two-round hash before ECDSA verification." -/
def specDoubleHashVerifySignature (publicKey : PublicKey) (content : String)
    (signature : ECSignature) : Bool :=
  ecdsaVerify publicKey (Digest.sha256OfDigest (Digest.sha256OfStr content)) signature

/- ===================================================================
   DID document model (anp_auth: logger_interface.go)
   =================================================================== -/

/-- One entry of a DID document's `service` list. -/
structure Service where
  id : String
  type : String
  serviceEndpoint : String
deriving DecidableEq, Repr

/-- One entry of `verificationMethod`.  In Go this is a `map[string]any`; the
embedding keeps the three fields the code reads.  `publicKeyJwk` is the decoded
secp256k1 point: `some pk` when the JWK decodes to a point on the curve
(`NewEcdsaSecp256k1VerificationKey2019` succeeds), `none` otherwise. -/
structure VerificationMethodEntry where
  id : String
  type : String
  publicKeyJwk : Option PublicKey
deriving DecidableEq, Repr

/-- `DIDWBADocument` (src/anp_auth/logger_interface.go lines 52-58). -/
structure DIDWBADocument where
  context : List String
  id : String
  verificationMethod : List VerificationMethodEntry
  authentication : List String
  service : List Service
deriving DecidableEq, Repr

/-- The document built by `CreateDIDWBADocument` for a hostname (nil port, no
path segments, no agent-description URL) and a freshly generated key pair:
DID `did:wba:<hostname>`, one `EcdsaSecp256k1VerificationKey2019` method with
fragment `key-1`, referenced by `authentication`. -/
def createdDocument (hostname : String) (key : PrivateKey) : DIDWBADocument :=
  { context := ["https://www.w3.org/ns/did/v1",
                "https://w3id.org/security/suites/jws-2020/v1",
                "https://w3id.org/security/suites/secp256k1-2019/v1"]
    id := "did:wba:" ++ hostname
    verificationMethod :=
      [{ id := "did:wba:" ++ hostname ++ "#key-1"
         type := "EcdsaSecp256k1VerificationKey2019"
         publicKeyJwk := some (publicKeyOf key) }]
    authentication := ["did:wba:" ++ hostname ++ "#key-1"]
    service := [] }

/-- `CreateDIDWBADocument` (src/anp_auth/logger_interface.go lines 77-121),
restricted to a nil port and no path segments; the generated private key is
passed in because key-generation randomness is external.  `validateHostname`
rejects the empty hostname (its IP-address check, `net.ParseIP`, is external
and not modelled). -/
def CreateDIDWBADocument (hostname : String) (key : PrivateKey) :
    Except String DIDWBADocument :=
  if hostname = "" then Except.error "hostname cannot be empty"
  else Except.ok (createdDocument hostname key)

/-- Everything after the first `#` of a reference, or the whole reference when
it has no `#` (the `strings.Index(reference, "#")` logic of
`selectVerificationMethod`). -/
def afterFirstHash (s : String) : String :=
  match s.data.dropWhile (fun c => !(c = '#')) with
  | [] => s
  | _ :: rest => ⟨rest⟩

/-- `selectVerificationMethodForFragment` (src/anp_auth/logger_interface.go
lines 582-594): look the fragment up among the document's verification
methods. -/
def selectVerificationMethodForFragment (doc : DIDWBADocument) (fragment : String) :
    Except String (VerificationMethodEntry × String) :=
  if fragment = "" then Except.error "verification method fragment cannot be empty"
  else
    match doc.verificationMethod.find? (fun m => m.id = doc.id ++ "#" ++ fragment) with
    | some m => Except.ok (m, fragment)
    | none => Except.error ("verification method not found: " ++ fragment)

/-- `selectVerificationMethod` (src/anp_auth/logger_interface.go lines
567-580): take the first `authentication` reference and resolve its
fragment. -/
def selectVerificationMethod (doc : DIDWBADocument) :
    Except String (VerificationMethodEntry × String) :=
  match doc.authentication with
  | [] => Except.error "did document missing authentication methods"
  | reference :: _ => selectVerificationMethodForFragment doc (afterFirstHash reference)

/-- `CreateVerificationMethod` together with
`NewEcdsaSecp256k1VerificationKey2019` (src/unnamed/part_003 lines 53-111):
dispatch on the `type` string (only `EcdsaSecp256k1VerificationKey2019` is
registered) and decode the JWK public key. -/
def CreateVerificationMethod (m : VerificationMethodEntry) : Except String PublicKey :=
  if m.type = "EcdsaSecp256k1VerificationKey2019" then
    match m.publicKeyJwk with
    | some pk => Except.ok pk
    | none => Except.error "invalid publicKeyJwk"
  else Except.error ("unsupported verification method type: " ++ m.type)

/-- The header parts produced by `GenerateAuthHeader`, with the signature kept
in its symbolic decoded form (the base64url/R-S wire encoding is an external
bijection between valid signatures and their 86-character strings). -/
structure SigHeader where
  did : String
  nonce : String
  timestamp : String
  verificationMethod : String
  signature : ECSignature
deriving DecidableEq, Repr

/-- `GenerateAuthHeader` (src/anp_auth/logger_interface.go lines 244-283).
The fresh nonce (`uuid.NewString`) and current timestamp
(`time.Now().UTC().Format(time.RFC3339)`) are external inputs and are passed
as arguments. -/
def GenerateAuthHeader (privateKey : PrivateKey) (doc : DIDWBADocument)
    (serviceDomain nonce timestamp : String) : Except String SigHeader :=
  match selectVerificationMethod doc with
  | Except.error e => Except.error e
  | Except.ok (m, fragment) =>
    if m.type = "EcdsaSecp256k1VerificationKey2019" then
      Except.ok
        { did := doc.id
          nonce := nonce
          timestamp := timestamp
          verificationMethod := fragment
          signature := signPayload privateKey
            { nonce := nonce, time := timestamp, service := serviceDomain, did := doc.id } }
    else Except.error ("unsupported verification method type for signing: " ++ m.type)

/-- `DidWbaVerifier.verifySignature` (src/unnamed/part_001 lines 358-397)
after header parsing and signature decoding: check the DID against the
document, select the verification method, rebuild the payload from the header
fields and the verifier's service domain, and verify. -/
def verifySignatureCore (doc : DIDWBADocument) (serviceDomain : String)
    (h : SigHeader) : Bool :=
  if h.did = doc.id then
    match selectVerificationMethodForFragment doc h.verificationMethod with
    | Except.error _ => false
    | Except.ok (m, _) =>
      match CreateVerificationMethod m with
      | Except.error _ => false
      | Except.ok pk =>
        EcdsaSecp256k1VerifySignature pk
          (authPayload.marshal
            { nonce := h.nonce, time := h.timestamp, service := serviceDomain, did := h.did })
          h.signature
  else false

/- Helper lemmas for the generate/verify theorems. -/

theorem strAppend_data (a b : String) : (a ++ b).data = a.data ++ b.data :=
  rfl

theorem strAppend_assoc (a b c : String) : a ++ b ++ c = a ++ (b ++ c) := by
  cases a; cases b; cases c
  show String.mk _ = String.mk _
  simp [String.append, List.append_assoc]

theorem dropWhile_no_hash {l : List Char} (hl : '#' ∉ l) (r : List Char) :
    (l ++ '#' :: r).dropWhile (fun c => !(c = '#')) = '#' :: r := by
  induction l with
  | nil => simp [List.dropWhile_cons]
  | cons c t ih =>
    have hc : ¬ c = '#' := fun hh => hl (hh ▸ List.mem_cons_self c t)
    have ht : '#' ∉ t := fun hh => hl (List.mem_cons_of_mem c hh)
    simp only [List.cons_append, List.dropWhile_cons, hc]
    simpa [hc] using ih ht

theorem afterFirstHash_append {s : String} (hs : '#' ∉ s.data) (frag : List Char) :
    afterFirstHash (s ++ ⟨'#' :: frag⟩) = ⟨frag⟩ := by
  unfold afterFirstHash
  rw [strAppend_data]
  have hdata : (⟨'#' :: frag⟩ : String).data = '#' :: frag := rfl
  rw [hdata, dropWhile_no_hash hs]

/-- Claim C1 (code bug witness theorem): for every key/document pair produced
by `CreateDIDWBADocument` and every service domain, nonce and timestamp,
`GenerateAuthHeader` succeeds but the verifier's signature check
(`DidWbaVerifier.verifySignature`) on the produced header **fails**: signing
uses SHA256(SHA256(payload)) while verification checks SHA256(payload). -/
theorem C1_generate_then_verify_fails (hostname : String) (key : PrivateKey)
    (serviceDomain nonce timestamp : String)
    (hne : hostname ≠ "") (hnh : '#' ∉ hostname.data) :
    CreateDIDWBADocument hostname key = Except.ok (createdDocument hostname key) ∧
    ∀ hdr, GenerateAuthHeader key (createdDocument hostname key) serviceDomain nonce timestamp
        = Except.ok hdr →
      verifySignatureCore (createdDocument hostname key) serviceDomain hdr = false := by
  have hdid : '#' ∉ ("did:wba:" ++ hostname).data := by
    rw [strAppend_data]
    intro hmem
    rcases List.mem_append.mp hmem with hmem | hmem
    · simp at hmem
    · exact hnh hmem
  have hfrag : afterFirstHash ("did:wba:" ++ hostname ++ "#key-1") = "key-1" := by
    rw [strAppend_assoc]
    exact afterFirstHash_append hdid "key-1".data
  have hid : "did:wba:" ++ hostname ++ "#" ++ "key-1" = "did:wba:" ++ hostname ++ "#key-1" := by
    rw [strAppend_assoc ("did:wba:" ++ hostname) "#" "key-1"]
    exact congrArg (fun x => "did:wba:" ++ hostname ++ x) (by decide)
  constructor
  · unfold CreateDIDWBADocument
    rw [if_neg hne]
  · intro hdr hgen
    simp [GenerateAuthHeader, selectVerificationMethod, createdDocument,
      selectVerificationMethodForFragment, hfrag, hid] at hgen
    subst hgen
    simp only [verifySignatureCore, createdDocument, selectVerificationMethodForFragment,
      hid, List.find?_cons, CreateVerificationMethod, EcdsaSecp256k1VerifySignature,
      signPayload, ecdsaSign, ecdsaVerify, publicKeyOf]
    simp

/-- Closed witness for C1 at a concrete input. -/
theorem C1_generate_then_verify_fails_witness :
    ("example.com" : String) ≠ "" ∧ '#' ∉ ("example.com" : String).data ∧
    (CreateDIDWBADocument "example.com" ⟨7⟩
        = Except.ok (createdDocument "example.com" ⟨7⟩) ∧
      ∀ hdr, GenerateAuthHeader ⟨7⟩ (createdDocument "example.com" ⟨7⟩)
          "example.com" "nonce-1" "2024-01-01T00:00:00Z" = Except.ok hdr →
        verifySignatureCore (createdDocument "example.com" ⟨7⟩) "example.com" hdr = false) :=
  ⟨by decide, by decide,
    C1_generate_then_verify_fails "example.com" ⟨7⟩ "example.com" "nonce-1"
      "2024-01-01T00:00:00Z" (by decide) (by decide)⟩

/-- Claim C2 (code bug witness theorem): `signPayload` hashes the JCS payload
twice with SHA-256 and signs the second digest, but
`EcdsaSecp256k1VerificationKey2019.VerifySignature` hashes the reconstructed
payload only **once** before `ecdsa.Verify`; consequently a signature produced
by `signPayload` never passes `VerifySignature` on the same payload. -/
theorem C2_sign_hashes_twice_verify_hashes_once (privateKey : PrivateKey)
    (payload : authPayload) :
    (signPayload privateKey payload).signedDigest
        = Digest.sha256OfDigest (Digest.sha256OfStr payload.marshal) ∧
    EcdsaSecp256k1VerifySignature (publicKeyOf privateKey) payload.marshal
        (ecdsaSign privateKey (Digest.sha256OfStr payload.marshal)) = true ∧
    EcdsaSecp256k1VerifySignature (publicKeyOf privateKey) payload.marshal
        (signPayload privateKey payload) = false := by
  refine ⟨rfl, ?_, ?_⟩
  · unfold EcdsaSecp256k1VerifySignature ecdsaVerify ecdsaSign publicKeyOf
    rw [if_pos ⟨rfl, rfl⟩]
  · unfold EcdsaSecp256k1VerifySignature signPayload ecdsaVerify ecdsaSign publicKeyOf
    rw [if_neg]
    intro hcon
    exact absurd hcon.2 (by simp)

/-- Soundness of the comparison point: under the two-round hash the spec
describes, the same generated signature verifies.  This isolates the missing
second hash as the exact divergence. -/
theorem specDoubleHashVerify_roundtrip (privateKey : PrivateKey) (payload : authPayload) :
    specDoubleHashVerifySignature (publicKeyOf privateKey) payload.marshal
        (signPayload privateKey payload) = true := by
  unfold specDoubleHashVerifySignature signPayload ecdsaVerify ecdsaSign publicKeyOf
  rw [if_pos ⟨rfl, rfl⟩]

/- ===================================================================
   Authorization header formatting and parsing
   (anp_auth: AuthHeader.String, parseAuthHeader, logger_interface.go)
   =================================================================== -/

/-- `AuthHeader` (src/anp_auth/logger_interface.go lines 218-224): the five
string-valued parts of a `DIDWba` Authorization header. -/
structure AuthHeader where
  did : String
  nonce : String
  timestamp : String
  verificationMethod : String
  signature : String
deriving DecidableEq, Repr

/-- The character sequence produced by `AuthHeader.String`
(src/anp_auth/logger_interface.go lines 236-241), i.e. the `fmt.Sprintf`
template
`DIDWba did="%s", nonce="%s", timestamp="%s", verification_method="%s", signature="%s"`.
The literal segments are written as explicit character lists, grouped so the
parsing lemmas can peel the string section by section; the flattened sequence
is exactly the template above. -/
def formatChars (h : AuthHeader) : List Char :=
  ['D', 'I', 'D', 'W', 'b', 'a', ' '] ++
  (['d', 'i', 'd', '=', '"'] ++
   (h.did.data ++ ('"' :: ',' :: ' ' ::
    (['n', 'o', 'n', 'c', 'e', '=', '"'] ++
     (h.nonce.data ++ ('"' :: ',' :: ' ' ::
      (['t', 'i', 'm', 'e', 's', 't', 'a', 'm', 'p', '=', '"'] ++
       (h.timestamp.data ++ ('"' :: ',' :: ' ' ::
        (['v', 'e', 'r', 'i', 'f', 'i', 'c', 'a', 't', 'i', 'o', 'n', '_',
          'm', 'e', 't', 'h', 'o', 'd', '=', '"'] ++
         (h.verificationMethod.data ++ ('"' :: ',' :: ' ' ::
          (['s', 'i', 'g', 'n', 'a', 't', 'u', 'r', 'e', '=', '"'] ++
           (h.signature.data ++ ['"']))))))))))))))

/-- `AuthHeader.String` (src/anp_auth/logger_interface.go lines 236-241). -/
def AuthHeader.headerString (h : AuthHeader) : String :=
  ⟨formatChars h⟩

/-- Whitespace as trimmed by Go's `strings.TrimSpace` (restricted to the ASCII
space characters; the protocol strings are ASCII). -/
def isWS (c : Char) : Bool :=
  c = ' ' || c = '\t' || c = '\n' || c = '\r'

/-- Model of `strings.TrimSpace`: drop whitespace from both ends. -/
def trimChars (cs : List Char) : List Char :=
  ((cs.dropWhile isWS).reverse.dropWhile isWS).reverse

/-- Strip an expected prefix, or fail (used to model one regex literal
match). -/
def chopFront (p cs : List Char) : Option (List Char) :=
  if p.isPrefixOf cs then some (cs.drop p.length) else none

/-- One attempted match of the regex fragment `key="([^"]*)"` at the current
position: the literal key, `="`, then the longest run of non-quote characters,
then the closing quote.  Returns the captured value and the remainder after
the match. -/
def tryKey (k : String) (cs : List Char) : Option (String × List Char) :=
  match chopFront (k.data ++ ['=', '"']) cs with
  | none => none
  | some rest =>
    match rest.dropWhile (fun c => !(c = '"')) with
    | '"' :: tail => some (⟨rest.takeWhile (fun c => !(c = '"'))⟩, tail)
    | _ => none

/-- One attempted match, at the current position, of the full regex
`(did|nonce|timestamp|verification_method|signature)="([^"]*)"` used by
`parseAuthHeader` (src/anp_auth/logger_interface.go line 419).  The five
alternatives begin with five distinct characters, so at most one can match at
a given position; they are tried in the regex's order. -/
def tryKeys (cs : List Char) : Option (String × String × List Char) :=
  match tryKey "did" cs with
  | some (v, rest) => some ("did", v, rest)
  | none =>
  match tryKey "nonce" cs with
  | some (v, rest) => some ("nonce", v, rest)
  | none =>
  match tryKey "timestamp" cs with
  | some (v, rest) => some ("timestamp", v, rest)
  | none =>
  match tryKey "verification_method" cs with
  | some (v, rest) => some ("verification_method", v, rest)
  | none =>
  match tryKey "signature" cs with
  | some (v, rest) => some ("signature", v, rest)
  | none => none

theorem chopFront_length {p cs r : List Char} (h : chopFront p cs = some r) :
    r.length = cs.length - p.length ∧ p.length ≤ cs.length := by
  unfold chopFront at h
  split at h
  · next hp =>
    injection h with h'
    subst h'
    refine ⟨List.length_drop _ _, ?_⟩
    rw [List.isPrefixOf_iff_prefix] at hp
    exact hp.length_le
  · exact absurd h (by simp)

theorem tryKey_rest_length {k : String} {cs : List Char} {v : String} {rest : List Char}
    (h : tryKey k cs = some (v, rest)) : rest.length < cs.length := by
  unfold tryKey at h
  split at h
  · exact absurd h (by simp)
  · next r hc =>
    split at h
    · next tail hd =>
      injection h with h'
      have htail : tail = rest := congrArg Prod.snd h'
      subst htail
      obtain ⟨hrlen, hple⟩ := chopFront_length hc
      have hdle : ('"' :: tail).length ≤ r.length := by
        rw [← hd]; exact (List.dropWhile_suffix _).length_le
      have hke : 2 ≤ (k.data ++ ['=', '"']).length := by
        simp [List.length_append]
      simp only [List.length_cons] at hdle
      omega
    · exact absurd h (by simp)

theorem tryKeys_rest_length {cs : List Char} {k v : String} {rest : List Char}
    (h : tryKeys cs = some (k, v, rest)) : rest.length < cs.length := by
  unfold tryKeys at h
  split at h
  · next v' rest' hk =>
    simp only [Option.some.injEq, Prod.mk.injEq] at h
    obtain ⟨-, -, rfl⟩ := h
    exact tryKey_rest_length hk
  · split at h
    · next v' rest' hk =>
      simp only [Option.some.injEq, Prod.mk.injEq] at h
      obtain ⟨-, -, rfl⟩ := h
      exact tryKey_rest_length hk
    · split at h
      · next v' rest' hk =>
        simp only [Option.some.injEq, Prod.mk.injEq] at h
        obtain ⟨-, -, rfl⟩ := h
        exact tryKey_rest_length hk
      · split at h
        · next v' rest' hk =>
          simp only [Option.some.injEq, Prod.mk.injEq] at h
          obtain ⟨-, -, rfl⟩ := h
          exact tryKey_rest_length hk
        · split at h
          · next v' rest' hk =>
            simp only [Option.some.injEq, Prod.mk.injEq] at h
            obtain ⟨-, -, rfl⟩ := h
            exact tryKey_rest_length hk
          · exact Option.noConfusion h

/-- The scanning loop of `regexp.FindAllStringSubmatch`: repeatedly find the
leftmost match of the key-value regex, record it, and continue after the
match; a position with no match advances one character.  `fuel` bounds the
recursion; `findKVMatches` supplies enough fuel that it never runs out
(`findKVAux_fuel`). -/
def findKVAux (fuel : Nat) (cs : List Char) : List (String × String) :=
  match fuel with
  | 0 => []
  | fuel + 1 =>
    match tryKeys cs with
    | some (k, v, rest) => (k, v) :: findKVAux fuel rest
    | none =>
      match cs with
      | [] => []
      | _ :: t => findKVAux fuel t

/-- All key-value matches of the header regex, leftmost first, non-overlapping
(`re.FindAllStringSubmatch(header, -1)` in the Go source). -/
def findKVMatches (cs : List Char) : List (String × String) :=
  findKVAux cs.length cs

theorem findKVAux_nil (fuel : Nat) : findKVAux fuel [] = [] := by
  cases fuel <;> rfl

theorem findKVAux_fuel : ∀ (fuel₁ fuel₂ : Nat) (cs : List Char),
    cs.length ≤ fuel₁ → cs.length ≤ fuel₂ → findKVAux fuel₁ cs = findKVAux fuel₂ cs := by
  intro fuel₁
  induction fuel₁ with
  | zero =>
    intro fuel₂ cs h1 _
    have : cs = [] := List.length_eq_zero.mp (Nat.le_zero.mp h1)
    subst this
    rw [findKVAux_nil, findKVAux_nil]
  | succ n ih =>
    intro fuel₂ cs h1 h2
    cases cs with
    | nil => rw [findKVAux_nil, findKVAux_nil]
    | cons c t =>
      cases fuel₂ with
      | zero => simp at h2
      | succ m =>
        show (match tryKeys (c :: t) with
          | some (k, v, rest) => (k, v) :: findKVAux n rest
          | none => match c :: t with | [] => [] | _ :: t => findKVAux n t) =
          (match tryKeys (c :: t) with
          | some (k, v, rest) => (k, v) :: findKVAux m rest
          | none => match c :: t with | [] => [] | _ :: t => findKVAux m t)
        cases htk : tryKeys (c :: t) with
        | some kvr =>
          obtain ⟨k, v, rest⟩ := kvr
          have hlt := tryKeys_rest_length htk
          simp only [List.length_cons] at h1 h2 hlt
          have := ih m rest (by omega) (by omega)
          simp [this]
        | none =>
          simp only [List.length_cons] at h1 h2
          have := ih m t (by omega) (by omega)
          simp [this]

theorem findKVAux_succ (fuel : Nat) (cs : List Char) :
    findKVAux (fuel + 1) cs =
      match tryKeys cs with
      | some (k, v, rest) => (k, v) :: findKVAux fuel rest
      | none => match cs with | [] => [] | _ :: t => findKVAux fuel t := rfl

theorem findKVMatches_pos {cs : List Char} {k v : String} {rest : List Char}
    (h : tryKeys cs = some (k, v, rest)) :
    findKVMatches cs = (k, v) :: findKVMatches rest := by
  unfold findKVMatches
  have hlt := tryKeys_rest_length h
  have hpos : 0 < cs.length := Nat.lt_of_le_of_lt (Nat.zero_le _) hlt
  obtain ⟨n, hn⟩ : ∃ n, cs.length = n + 1 := ⟨cs.length - 1, by omega⟩
  rw [hn, findKVAux_succ, h]
  have hfu : findKVAux n rest = findKVAux rest.length rest :=
    findKVAux_fuel n rest.length rest (by omega) (by omega)
  show (k, v) :: findKVAux n rest = (k, v) :: findKVAux rest.length rest
  rw [hfu]

theorem findKVMatches_skip {c : Char} {cs : List Char} (h : tryKeys (c :: cs) = none) :
    findKVMatches (c :: cs) = findKVMatches cs := by
  unfold findKVMatches
  rw [List.length_cons, findKVAux_succ, h]

/-- Assign one captured key-value pair to its header field (the `switch` in
`parseAuthHeader`, src/anp_auth/logger_interface.go lines 425-438); a later
match for the same key overwrites an earlier one. -/
def applyKV (a : AuthHeader) (kv : String × String) : AuthHeader :=
  if kv.1 = "did" then { a with did := kv.2 }
  else if kv.1 = "nonce" then { a with nonce := kv.2 }
  else if kv.1 = "timestamp" then { a with timestamp := kv.2 }
  else if kv.1 = "verification_method" then { a with verificationMethod := kv.2 }
  else if kv.1 = "signature" then { a with signature := kv.2 }
  else a

/-- `parseAuthHeader` (src/anp_auth/logger_interface.go lines 405-445), on the
character sequence of the header: trim, require and strip the `DIDWba`
prefix, trim again, collect all `key="value"` regex matches, fold them into
the parts, and reject if any of the five fields is empty (also when there was
no match at all). -/
def parseAuthHeaderChars (cs0 : List Char) : Option AuthHeader :=
  let cs := trimChars cs0
  if cs = [] then none
  else if "DIDWba".data.isPrefixOf cs then
    let rest := trimChars (cs.drop 6)
    let ms := findKVMatches rest
    if ms = [] then none
    else
      let parts := ms.foldl applyKV ⟨"", "", "", "", ""⟩
      if parts.did = "" ∨ parts.nonce = "" ∨ parts.timestamp = "" ∨
          parts.verificationMethod = "" ∨ parts.signature = "" then none
      else some parts
  else none

/-- `parseAuthHeader` on strings. -/
def parseAuthHeader (header : String) : Option AuthHeader :=
  parseAuthHeaderChars header.data

/- Round-trip lemmas for format/parse (claim C8). -/

theorem list_prefix_self_append (p r : List Char) : p.isPrefixOf (p ++ r) = true := by
  rw [List.isPrefixOf_iff_prefix]
  exact List.prefix_append p r

theorem takeWhile_value_quote {v : List Char} (r : List Char)
    (hv : ∀ c ∈ v, ¬ c = '"') :
    (v ++ '"' :: r).takeWhile (fun c => !(c = '"')) = v := by
  induction v with
  | nil => simp [List.takeWhile_cons]
  | cons c t ih =>
    have hc : ¬ c = '"' := hv c (List.mem_cons_self c t)
    have ht : ∀ x ∈ t, ¬ x = '"' := fun x hx => hv x (List.mem_cons_of_mem c hx)
    simp [List.takeWhile_cons, hc, ih ht]

theorem dropWhile_value_quote {v : List Char} (r : List Char)
    (hv : ∀ c ∈ v, ¬ c = '"') :
    (v ++ '"' :: r).dropWhile (fun c => !(c = '"')) = '"' :: r := by
  induction v with
  | nil => simp [List.dropWhile_cons]
  | cons c t ih =>
    have hc : ¬ c = '"' := hv c (List.mem_cons_self c t)
    have ht : ∀ x ∈ t, ¬ x = '"' := fun x hx => hv x (List.mem_cons_of_mem c hx)
    simp [List.dropWhile_cons, hc, ih ht]

theorem tryKey_exact (k : String) (v r : List Char) (hv : ∀ c ∈ v, ¬ c = '"') :
    tryKey k (k.data ++ '=' :: '"' :: (v ++ '"' :: r)) = some (⟨v⟩, r) := by
  have hshape : k.data ++ '=' :: '"' :: (v ++ '"' :: r)
      = (k.data ++ ['=', '"']) ++ (v ++ '"' :: r) := by
    simp
  simp only [tryKey, chopFront, hshape, list_prefix_self_append, if_true, List.drop_left,
    dropWhile_value_quote r hv, takeWhile_value_quote r hv]

theorem tryKeys_at_did (v r : List Char) (hv : ∀ c ∈ v, ¬ c = '"') :
    tryKeys ("did".data ++ '=' :: '"' :: (v ++ '"' :: r)) = some ("did", ⟨v⟩, r) := by
  unfold tryKeys
  rw [tryKey_exact "did" v r hv]

theorem tryKeys_at_nonce (v r : List Char) (hv : ∀ c ∈ v, ¬ c = '"') :
    tryKeys ("nonce".data ++ '=' :: '"' :: (v ++ '"' :: r)) = some ("nonce", ⟨v⟩, r) := by
  unfold tryKeys
  rw [show tryKey "did" ("nonce".data ++ '=' :: '"' :: (v ++ '"' :: r)) = none from rfl]
  rw [tryKey_exact "nonce" v r hv]

theorem tryKeys_at_timestamp (v r : List Char) (hv : ∀ c ∈ v, ¬ c = '"') :
    tryKeys ("timestamp".data ++ '=' :: '"' :: (v ++ '"' :: r))
      = some ("timestamp", ⟨v⟩, r) := by
  unfold tryKeys
  rw [show tryKey "did" ("timestamp".data ++ '=' :: '"' :: (v ++ '"' :: r)) = none from rfl]
  rw [show tryKey "nonce" ("timestamp".data ++ '=' :: '"' :: (v ++ '"' :: r)) = none from rfl]
  rw [tryKey_exact "timestamp" v r hv]

theorem tryKeys_at_verification_method (v r : List Char) (hv : ∀ c ∈ v, ¬ c = '"') :
    tryKeys ("verification_method".data ++ '=' :: '"' :: (v ++ '"' :: r))
      = some ("verification_method", ⟨v⟩, r) := by
  unfold tryKeys
  rw [show tryKey "did" ("verification_method".data ++ '=' :: '"' :: (v ++ '"' :: r))
        = none from rfl]
  rw [show tryKey "nonce" ("verification_method".data ++ '=' :: '"' :: (v ++ '"' :: r))
        = none from rfl]
  rw [show tryKey "timestamp" ("verification_method".data ++ '=' :: '"' :: (v ++ '"' :: r))
        = none from rfl]
  rw [tryKey_exact "verification_method" v r hv]

theorem tryKeys_at_signature (v r : List Char) (hv : ∀ c ∈ v, ¬ c = '"') :
    tryKeys ("signature".data ++ '=' :: '"' :: (v ++ '"' :: r))
      = some ("signature", ⟨v⟩, r) := by
  unfold tryKeys
  rw [show tryKey "did" ("signature".data ++ '=' :: '"' :: (v ++ '"' :: r)) = none from rfl]
  rw [show tryKey "nonce" ("signature".data ++ '=' :: '"' :: (v ++ '"' :: r)) = none from rfl]
  rw [show tryKey "timestamp" ("signature".data ++ '=' :: '"' :: (v ++ '"' :: r))
        = none from rfl]
  rw [show tryKey "verification_method" ("signature".data ++ '=' :: '"' :: (v ++ '"' :: r))
        = none from rfl]
  rw [tryKey_exact "signature" v r hv]

theorem findKVMatches_sep (cs : List Char) :
    findKVMatches (',' :: ' ' :: cs) = findKVMatches cs := by
  rw [findKVMatches_skip (show tryKeys (',' :: ' ' :: cs) = none from rfl)]
  rw [findKVMatches_skip (show tryKeys (' ' :: cs) = none from rfl)]

/-- The part of the formatted header after the `DIDWba ` prefix, grouped for
section-by-section parsing (definitionally equal to the corresponding suffix
of `formatChars`). -/
def formattedTail (h : AuthHeader) : List Char :=
  "did".data ++ ('=' :: '"' ::
   (h.did.data ++ ('"' :: ',' :: ' ' ::
    ("nonce".data ++ ('=' :: '"' ::
     (h.nonce.data ++ ('"' :: ',' :: ' ' ::
      ("timestamp".data ++ ('=' :: '"' ::
       (h.timestamp.data ++ ('"' :: ',' :: ' ' ::
        ("verification_method".data ++ ('=' :: '"' ::
         (h.verificationMethod.data ++ ('"' :: ',' :: ' ' ::
          ("signature".data ++ ('=' :: '"' ::
           (h.signature.data ++ ['"']))))))))))))))))))

theorem findKV_formattedTail (h : AuthHeader)
    (hD : ∀ c ∈ h.did.data, ¬ c = '"')
    (hN : ∀ c ∈ h.nonce.data, ¬ c = '"')
    (hT : ∀ c ∈ h.timestamp.data, ¬ c = '"')
    (hV : ∀ c ∈ h.verificationMethod.data, ¬ c = '"')
    (hS : ∀ c ∈ h.signature.data, ¬ c = '"') :
    findKVMatches (formattedTail h) =
      [("did", h.did), ("nonce", h.nonce), ("timestamp", h.timestamp),
        ("verification_method", h.verificationMethod), ("signature", h.signature)] := by
  unfold formattedTail
  rw [findKVMatches_pos (tryKeys_at_did h.did.data _ hD)]
  rw [findKVMatches_sep]
  rw [findKVMatches_pos (tryKeys_at_nonce h.nonce.data _ hN)]
  rw [findKVMatches_sep]
  rw [findKVMatches_pos (tryKeys_at_timestamp h.timestamp.data _ hT)]
  rw [findKVMatches_sep]
  rw [findKVMatches_pos (tryKeys_at_verification_method h.verificationMethod.data _ hV)]
  rw [findKVMatches_sep]
  rw [findKVMatches_pos (tryKeys_at_signature h.signature.data _ hS)]
  rfl

theorem getLast?_append_right {α : Type} {a : α} (l₁ : List α) {l₂ : List α}
    (h : l₂.getLast? = some a) : (l₁ ++ l₂).getLast? = some a := by
  have hne : l₂ ≠ [] := by
    intro hnil
    subst hnil
    simp at h
  rw [List.getLast?_append_of_ne_nil l₁ hne]
  exact h

theorem formattedTail_getLast (h : AuthHeader) :
    (formattedTail h).getLast? = some '"' := by
  unfold formattedTail
  apply getLast?_append_right ['d', 'i', 'd', '=', '"']
  apply getLast?_append_right
  apply getLast?_append_right ['"', ',', ' ', 'n', 'o', 'n', 'c', 'e', '=', '"']
  apply getLast?_append_right
  apply getLast?_append_right
    ['"', ',', ' ', 't', 'i', 'm', 'e', 's', 't', 'a', 'm', 'p', '=', '"']
  apply getLast?_append_right
  apply getLast?_append_right
    ['"', ',', ' ', 'v', 'e', 'r', 'i', 'f', 'i', 'c', 'a', 't', 'i', 'o', 'n', '_',
      'm', 'e', 't', 'h', 'o', 'd', '=', '"']
  apply getLast?_append_right
  apply getLast?_append_right
    ['"', ',', ' ', 's', 'i', 'g', 'n', 'a', 't', 'u', 'r', 'e', '=', '"']
  exact List.getLast?_concat _

theorem formatChars_decompose (h : AuthHeader) :
    formatChars h = ['D', 'I', 'D', 'W', 'b', 'a', ' '] ++ formattedTail h := rfl

theorem formatChars_getLast (h : AuthHeader) :
    (formatChars h).getLast? = some '"' := by
  rw [formatChars_decompose]
  exact getLast?_append_right _ (formattedTail_getLast h)

theorem dropWhile_eq_self_head {l : List Char} {c : Char}
    (hh : l.head? = some c) (hc : isWS c = false) : l.dropWhile isWS = l := by
  cases l with
  | nil => rfl
  | cons a t =>
    rw [List.head?_cons] at hh
    injection hh with hh'
    subst hh'
    simp [List.dropWhile_cons, hc]

theorem revTrim_eq_self {l : List Char} {d : Char}
    (hl : l.getLast? = some d) (hd : isWS d = false) :
    (l.reverse.dropWhile isWS).reverse = l := by
  have hh : l.reverse.head? = some d := by
    rw [List.head?_reverse]
    exact hl
  rw [dropWhile_eq_self_head hh hd, List.reverse_reverse]

theorem trim_formatChars (h : AuthHeader) :
    trimChars (formatChars h) = formatChars h := by
  unfold trimChars
  rw [show (formatChars h).dropWhile isWS = formatChars h from rfl]
  exact revTrim_eq_self (formatChars_getLast h) (by decide)

theorem trim_formatChars_drop (h : AuthHeader) :
    trimChars ((formatChars h).drop 6) = formattedTail h := by
  unfold trimChars
  rw [show ((formatChars h).drop 6).dropWhile isWS = formattedTail h from rfl]
  exact revTrim_eq_self (formattedTail_getLast h) (by decide)

/- The value alphabets of the five header fields (spec section 3: UUID,
RFC 3339 timestamp, fragment, DID, base64url).  All of them exclude the
double-quote character, which is the property header parsing relies on. -/

/-- Characters of a (lower-case) UUID. -/
def isUUIDChar (c : Char) : Bool :=
  c.isDigit || ('a' ≤ c && c ≤ 'f') || c = '-'

/-- Characters of an RFC 3339 timestamp. -/
def isRFC3339Char (c : Char) : Bool :=
  c.isDigit || c = '-' || c = ':' || c = 'T' || c = 'Z' || c = '+' || c = '.'

/-- Characters of a verification-method fragment such as `key-1`. -/
def isFragmentChar (c : Char) : Bool :=
  c.isAlphanum || c = '-' || c = '_' || c = '.'

/-- Characters of a `did:wba` identifier (alphanumerics, `:`, `.`, `-`, `_`
and `%` for percent-escapes). -/
def isDIDChar (c : Char) : Bool :=
  c.isAlphanum || c = ':' || c = '.' || c = '-' || c = '_' || c = '%'

/-- Characters of unpadded base64url. -/
def isBase64urlChar (c : Char) : Bool :=
  c.isAlphanum || c = '-' || c = '_'

theorem isUUIDChar_ne_quote {c : Char} (hc : isUUIDChar c = true) : ¬ c = '"' := by
  intro hq
  subst hq
  exact absurd hc (by decide)

theorem isRFC3339Char_ne_quote {c : Char} (hc : isRFC3339Char c = true) : ¬ c = '"' := by
  intro hq
  subst hq
  exact absurd hc (by decide)

theorem isFragmentChar_ne_quote {c : Char} (hc : isFragmentChar c = true) : ¬ c = '"' := by
  intro hq
  subst hq
  exact absurd hc (by decide)

theorem isDIDChar_ne_quote {c : Char} (hc : isDIDChar c = true) : ¬ c = '"' := by
  intro hq
  subst hq
  exact absurd hc (by decide)

theorem isBase64urlChar_ne_quote {c : Char} (hc : isBase64urlChar c = true) : ¬ c = '"' := by
  intro hq
  subst hq
  exact absurd hc (by decide)

/-- Claim C8: parsing inverts formatting.  For every `AuthHeader` whose five
field values are non-empty and drawn from the allowed alphabets (DID, UUID,
RFC 3339 timestamp, fragment, base64url), `parseAuthHeader` applied to the
`AuthHeader.String` rendering returns exactly the original parts. -/
theorem C8_parse_format_roundtrip (h : AuthHeader)
    (hdne : h.did ≠ "") (hnne : h.nonce ≠ "") (htne : h.timestamp ≠ "")
    (hvne : h.verificationMethod ≠ "") (hsne : h.signature ≠ "")
    (hdc : h.did.data.all isDIDChar = true)
    (hnc : h.nonce.data.all isUUIDChar = true)
    (htc : h.timestamp.data.all isRFC3339Char = true)
    (hvc : h.verificationMethod.data.all isFragmentChar = true)
    (hsc : h.signature.data.all isBase64urlChar = true) :
    parseAuthHeader h.headerString = some h := by
  have hD : ∀ c ∈ h.did.data, ¬ c = '"' :=
    fun c hc => isDIDChar_ne_quote (List.all_eq_true.mp hdc c hc)
  have hN : ∀ c ∈ h.nonce.data, ¬ c = '"' :=
    fun c hc => isUUIDChar_ne_quote (List.all_eq_true.mp hnc c hc)
  have hT : ∀ c ∈ h.timestamp.data, ¬ c = '"' :=
    fun c hc => isRFC3339Char_ne_quote (List.all_eq_true.mp htc c hc)
  have hV : ∀ c ∈ h.verificationMethod.data, ¬ c = '"' :=
    fun c hc => isFragmentChar_ne_quote (List.all_eq_true.mp hvc c hc)
  have hS : ∀ c ∈ h.signature.data, ¬ c = '"' :=
    fun c hc => isBase64urlChar_ne_quote (List.all_eq_true.mp hsc c hc)
  have hkv := findKV_formattedTail h hD hN hT hV hS
  simp only [parseAuthHeader, parseAuthHeaderChars]
  rw [show (AuthHeader.headerString h).data = formatChars h from rfl]
  rw [trim_formatChars h]
  rw [if_neg (show ¬ (formatChars h = []) from fun hx => List.noConfusion hx)]
  rw [if_pos (show "DIDWba".data.isPrefixOf (formatChars h) = true from rfl)]
  rw [trim_formatChars_drop h, hkv]
  rw [if_neg (show ¬ ((("did", h.did) :: _) = []) from fun hx => List.noConfusion hx)]
  rw [if_neg]
  · rfl
  · push_neg
    refine ⟨hdne, hnne, htne, hvne, hsne⟩

/-- Closed witness for C8 at a concrete header. -/
theorem C8_parse_format_roundtrip_witness :
    (let h : AuthHeader :=
      { did := "did:wba:example.com"
        nonce := "f47ac10b-58cc-4372-a567-0e02b2c3d479"
        timestamp := "2024-01-01T00:00:00Z"
        verificationMethod := "key-1"
        signature := "MEUCIQDexample-signature_value0123456789" }
     parseAuthHeader h.headerString = some h) := by
  exact C8_parse_format_roundtrip _ (by decide) (by decide) (by decide) (by decide)
    (by decide) (by decide) (by decide) (by decide) (by decide) (by decide)

/- ===================================================================
   Constants (src/unnamed/part_007) and error model (src/unnamed/part_008)
   =================================================================== -/

/-- `DefaultJWTAlgorithm` (src/unnamed/part_007). -/
def DefaultJWTAlgorithm : String := "RS256"

/-- `DefaultAccessTokenExpiration` (60 minutes), in seconds. -/
def DefaultAccessTokenExpiration : Int := 3600

/-- `DefaultTimestampExpiration` (5 minutes), in seconds. -/
def DefaultTimestampExpiration : Int := 300

/-- `DefaultDIDCacheExpiration` (15 minutes), in seconds. -/
def DefaultDIDCacheExpiration : Int := 900

/-- `DefaultNonceExpiration` (6 minutes), in seconds. -/
def DefaultNonceExpiration : Int := 360

/-- `DefaultTimestampTolerance` (1 minute), in seconds. -/
def DefaultTimestampTolerance : Int := 60

/-- `StatusBadRequest` (src/unnamed/part_007). -/
def StatusBadRequest : Nat := 400

/-- `StatusUnauthorized` (src/unnamed/part_007). -/
def StatusUnauthorized : Nat := 401

/-- `StatusForbidden` (src/unnamed/part_007). -/
def StatusForbidden : Nat := 403

/-- `StatusInternalServerError` (src/unnamed/part_007). -/
def StatusInternalServerError : Nat := 500

/-- The sentinel errors of src/unnamed/part_008 that the verifier path can
attach to a status code. -/
inductive AuthErrKind where
  | missingAuthHeader
  | invalidAuthHeader
  | invalidToken
  | invalidSignature
  | nonceInvalid
  | nonceValidatorFailure
  | timestampInvalid
  | timestampFuture
  | timestampExpired
  | domainNotAllowed
  | didResolution
  | jwtConfigMissing
  | tokenCreation
  | nonceValidatorMissing
  | keyLoadFailure
deriving DecidableEq, Repr

/-- `ErrorWithStatus` (src/unnamed/part_008 lines 121-140): an error kind
paired with the HTTP status code chosen by `NewErrorWithStatus`. -/
structure ErrorWithStatus where
  kind : AuthErrKind
  statusCode : Nat
deriving DecidableEq, Repr

/- ===================================================================
   Timestamp window (DidWbaVerifier.verifyTimestamp,
   src/unnamed/part_001 lines 329-345)
   =================================================================== -/

/-- The comparison logic of `DidWbaVerifier.verifyTimestamp` after
`time.Parse` succeeded (`requestTime` is the parsed header timestamp).  The Go
code rejects with 400 when
`requestTime.After(currentTime.Add(DefaultTimestampTolerance))`, with 401 when
`currentTime.Sub(requestTime) > v.config.TimestampExpiration`, and accepts
otherwise. -/
def verifyTimestampCore (expiration now requestTime : Int) : Option ErrorWithStatus :=
  if requestTime > now + DefaultTimestampTolerance then
    some ⟨AuthErrKind.timestampFuture, StatusBadRequest⟩
  else if now - requestTime > expiration then
    some ⟨AuthErrKind.timestampExpired, StatusUnauthorized⟩
  else none

/-- Claim C3 counterexample: with `timestamp_expiration` of 300 s and the
verifier clock at 1000, a header timestamp of 700 is exactly
`timestamp_expiration` old, yet the timestamp check **accepts** it (the code
uses a strict `>` comparison), contradicting the claim that it is rejected. -/
theorem C3_counterexample : verifyTimestampCore 300 1000 700 = none := by
  decide

/-- Claim C3 (amended): a timestamp exactly `timestamp_expiration` old passes
the timestamp check, as does one a second younger; only a timestamp strictly
older than `timestamp_expiration` (for example by one second) is rejected as
expired with status 401 — the expiry bound is exclusive. -/
theorem C3_amended_timestamp_boundary (expiration now : Int) (hexp : 0 ≤ expiration) :
    verifyTimestampCore expiration now (now - expiration) = none ∧
    verifyTimestampCore expiration now (now - expiration + 1) = none ∧
    verifyTimestampCore expiration now (now - expiration - 1)
      = some ⟨AuthErrKind.timestampExpired, StatusUnauthorized⟩ := by
  unfold verifyTimestampCore DefaultTimestampTolerance
  refine ⟨?_, ?_, ?_⟩
  · rw [if_neg (by omega), if_neg (by omega)]
  · rw [if_neg (by omega), if_neg (by omega)]
  · rw [if_neg (by omega), if_pos (by omega)]

/-- Closed witness for the amended C3 at concrete values. -/
theorem C3_amended_timestamp_boundary_witness :
    0 ≤ (300 : Int) ∧
    (verifyTimestampCore 300 1000 700 = none ∧
      verifyTimestampCore 300 1000 701 = none ∧
      verifyTimestampCore 300 1000 699
        = some ⟨AuthErrKind.timestampExpired, StatusUnauthorized⟩) :=
  ⟨by decide, C3_amended_timestamp_boundary 300 1000 (by decide)⟩

/- ===================================================================
   In-memory nonce validator (MemoryNonceValidator.Validate,
   src/anp_auth/nonce.go lines 35-56)
   =================================================================== -/

/-- The state of a `MemoryNonceValidator`: the `used` map as an association
list from key (`did + ":" + nonce`) to insertion time.  Keys are unique by
construction (an entry is only inserted when absent). -/
abbrev NonceState := List (String × Int)

/-- `MemoryNonceValidator.Validate` (src/anp_auth/nonce.go lines 35-56): under
the mutex, first evict every entry older than the TTL (`now.Sub(t) >
expiration`), then reject if the key is present, else record it.  `now` is the
value of `time.Now().UTC()` at the call.  The Go method's error result is
always nil and is omitted. -/
def memoryNonceValidate (expiration : Int) (st : NonceState) (now : Int)
    (did nonce : String) : Bool × NonceState :=
  let key := did ++ ":" ++ nonce
  let st1 := st.filter (fun e => !(now - e.2 > expiration))
  if st1.any (fun e => e.1 = key) then (false, st1)
  else (true, (key, now) :: st1)

theorem nonceKey_inj {d1 d2 n : String} (h : d1 ++ ":" ++ n = d2 ++ ":" ++ n) :
    d1 = d2 := by
  have hdata : d1.data ++ (':' :: n.data) = d2.data ++ (':' :: n.data) := by
    have hd := congrArg String.data h
    simpa [strAppend_data, List.append_assoc] using hd
  have hone : d1.data = d2.data := List.append_cancel_right hdata
  cases d1
  cases d2
  exact congrArg String.mk hone

/-- Claim C7: from a fresh in-memory validator, a `(did, nonce)` pair is
accepted once; re-submitting it while its entry is within the TTL is rejected;
the same nonce under a different DID is accepted (`did + ":" + nonce` keying);
and since eviction runs before the key check, once the entry is older than the
TTL the same pair is accepted again. -/
theorem C7_memory_nonce_validator (expiration now t : Int) (d1 d2 n : String)
    (hd : d1 ≠ d2) :
    (memoryNonceValidate expiration [] now d1 n).1 = true ∧
    (t - now ≤ expiration →
      (memoryNonceValidate expiration
        (memoryNonceValidate expiration [] now d1 n).2 t d1 n).1 = false) ∧
    (memoryNonceValidate expiration
      (memoryNonceValidate expiration [] now d1 n).2 t d2 n).1 = true ∧
    (t - now > expiration →
      (memoryNonceValidate expiration
        (memoryNonceValidate expiration [] now d1 n).2 t d1 n).1 = true) := by
  have hstate : (memoryNonceValidate expiration [] now d1 n).2
      = [(d1 ++ ":" ++ n, now)] := rfl
  have hkey : ¬ (d1 ++ ":" ++ n = d2 ++ ":" ++ n) := fun hcon => hd (nonceKey_inj hcon)
  refine ⟨rfl, ?_, ?_, ?_⟩
  · intro ht
    have hkeep : ¬ (t - now > expiration) := by omega
    rw [hstate]
    simp [memoryNonceValidate, List.filter_cons, List.any_cons, hkeep]
  · rw [hstate]
    by_cases ht : t - now > expiration
    · simp [memoryNonceValidate, List.filter_cons, List.any_cons, ht]
    · simp [memoryNonceValidate, List.filter_cons, List.any_cons, ht, hkey]
  · intro ht
    rw [hstate]
    simp [memoryNonceValidate, List.filter_cons, List.any_cons, ht]

/-- Closed witness for C7 at concrete values. -/
theorem C7_memory_nonce_validator_witness :
    ("did:wba:a" : String) ≠ "did:wba:b" ∧
    ((memoryNonceValidate 360 [] 0 "did:wba:a" "n1").1 = true ∧
      ((100 : Int) - 0 ≤ 360 →
        (memoryNonceValidate 360
          (memoryNonceValidate 360 [] 0 "did:wba:a" "n1").2 100 "did:wba:a" "n1").1
            = false) ∧
      (memoryNonceValidate 360
        (memoryNonceValidate 360 [] 0 "did:wba:a" "n1").2 100 "did:wba:b" "n1").1
          = true ∧
      ((100 : Int) - 0 > 360 →
        (memoryNonceValidate 360
          (memoryNonceValidate 360 [] 0 "did:wba:a" "n1").2 100 "did:wba:a" "n1").1
            = true)) :=
  ⟨by decide, C7_memory_nonce_validator 360 0 100 "did:wba:a" "did:wba:b" "n1" (by decide)⟩

/- ===================================================================
   Client transports (anp_crawler httpClient.Fetch, src/unnamed/part_016;
   anp_auth Transport.RoundTrip, src/unnamed/part_008)
   =================================================================== -/

/-- Observable effects of one `httpClient.Fetch` call: whether
`ClearToken` ran, whether `GenerateHeaderForce` ran, how many times the
request was executed, whether `UpdateFromResponse` ran, and the final
status (`none` models a transport error being returned). -/
structure FetchTrace where
  clearedToken : Bool
  forcedRefresh : Bool
  requestCount : Nat
  updatedFromResponse : Bool
  result : Option Nat
deriving DecidableEq, Repr

/-- `httpClient.Fetch` (src/unnamed/part_016 lines 103-159) after the auth
header was obtained: execute the request; on status 401 close the body, call
`ClearToken`, regenerate with `GenerateHeaderForce`, and retry exactly once;
then call `UpdateFromResponse` only when the final status is 2xx.
`resp1`/`resp2` are the statuses returned by the first and (if reached) second
execution; `none` is a network error, which `Fetch` returns immediately.
(Failure of `GenerateHeaderForce` itself, which also aborts before the retry,
is not modelled.) -/
def fetchModel (resp1 resp2 : Option Nat) : FetchTrace :=
  match resp1 with
  | none => ⟨false, false, 1, false, none⟩
  | some s1 =>
    if s1 = 401 then
      match resp2 with
      | none => ⟨true, true, 2, false, none⟩
      | some s2 => ⟨true, true, 2, decide (200 ≤ s2 ∧ s2 < 300), some s2⟩
    else ⟨false, false, 1, decide (200 ≤ s1 ∧ s1 < 300), some s1⟩

/-- Observable effects of one `Transport.RoundTrip` call. -/
structure RoundTripTrace where
  clearedToken : Bool
  forcedRefresh : Bool
  requestCount : Nat
  updatedFromResponse : Bool
  result : Option Nat
deriving DecidableEq, Repr

/-- `Transport.RoundTrip` (src/unnamed/part_008 lines 166-193): generate the
header, clone the request, execute once, and call
`Authenticator.UpdateFromResponse` unconditionally on every non-error
response.  There is no 401 handling, no `ClearToken`, no forced refresh and no
retry. -/
def roundTripModel (resp : Option Nat) : RoundTripTrace :=
  match resp with
  | none => ⟨false, false, 1, false, none⟩
  | some s => ⟨false, false, 1, true, some s⟩

/-- Claim C4 counterexample: for the auth-injecting `Transport.RoundTrip`, a
first response with status 401 triggers no token clear, no forced header
regeneration and no retry, and `UpdateFromResponse` is invoked even though the
status is not 2xx — contradicting the claim for this transport. -/
theorem C4_counterexample :
    roundTripModel (some 401)
      = ⟨false, false, 1, true, some 401⟩ := by
  decide

/-- Claim C4 (amended): the crawler's authenticated client `httpClient.Fetch`
behaves as the claim states — on a first-response 401 it clears the token,
regenerates the header with force, retries exactly once, and invokes
`update_from_response` exactly when the final status is 2xx — while the
`anp_auth` `Transport.RoundTrip` executes once, never retries, and invokes
`update_from_response` on every response regardless of status. -/
theorem C4_amended_transport_behaviour (resp2 : Option Nat) (s1 s2 : Nat)
    (hs1 : s1 ≠ 401) :
    fetchModel (some 401) (some s2)
      = ⟨true, true, 2, decide (200 ≤ s2 ∧ s2 < 300), some s2⟩ ∧
    fetchModel (some s1) resp2
      = ⟨false, false, 1, decide (200 ≤ s1 ∧ s1 < 300), some s1⟩ ∧
    roundTripModel (some s1) = ⟨false, false, 1, true, some s1⟩ := by
  refine ⟨rfl, ?_, rfl⟩
  simp [fetchModel, hs1]

/-- Closed witness for the amended C4 at concrete statuses. -/
theorem C4_amended_transport_behaviour_witness :
    (200 : Nat) ≠ 401 ∧
    (fetchModel (some 401) (some 200)
        = ⟨true, true, 2, decide ((200 : Nat) ≤ 200 ∧ (200 : Nat) < 300), some 200⟩ ∧
      fetchModel (some 200) (some 200)
        = ⟨false, false, 1, decide ((200 : Nat) ≤ 200 ∧ (200 : Nat) < 300), some 200⟩ ∧
      roundTripModel (some 200) = ⟨false, false, 1, true, some 200⟩) :=
  ⟨by decide, C4_amended_transport_behaviour (some 200) 200 200 (by decide)⟩

/- ===================================================================
   Verifier construction and the verification pipeline
   (DidWbaVerifier, src/unnamed/part_001)
   =================================================================== -/

/-- The three possible outcomes of a `NonceValidator.Validate` call
(src/anp_auth/nonce.go lines 9-14): `(true, nil)`, `(false, nil)` (replay),
or a non-nil error (validator unavailable). -/
inductive ValidatorReply where
  | accepted
  | rejected
  | failed
deriving DecidableEq, Repr

/-- A configured `NonceValidator`: either the in-repo `MemoryNonceValidator`
(with its TTL) or an arbitrary injected implementation, given by its reply
function. -/
inductive NonceValidatorM where
  | memory (expiration : Int)
  | external (f : String → String → ValidatorReply)

/-- Dispatch a `Validate` call to the configured validator, threading the
memory validator's state.  An external validator does not touch that state. -/
def nonceValidatorValidate (validator : NonceValidatorM) (st : NonceState) (now : Int)
    (did nonce : String) : ValidatorReply × NonceState :=
  match validator with
  | NonceValidatorM.memory expiration =>
    let r := memoryNonceValidate expiration st now did nonce
    (if r.1 then ValidatorReply.accepted else ValidatorReply.rejected, r.2)
  | NonceValidatorM.external f => (f did nonce, st)

/-- `DidWbaVerifierConfig` (src/unnamed/part_001 lines 122-136).  JWT keys are
opaque handles (`Nat`); the function-valued fields stand for the injected or
external collaborators: `resolveDIDDocument` for `ResolveDIDDocument` /
`ResolveDIDWBADocument` (network I/O), `parseTimestamp` for
`time.Parse(time.RFC3339, ...)`, `verifyAccessToken` / `createAccessToken` for
the golang-jwt based token functions, and `decodeSignature` for
`base64.RawURLEncoding.DecodeString` plus `unmarshalSignature`.  The injected
clock `Now` becomes the explicit `now` argument of each operation. -/
structure DidWbaVerifierConfig where
  jwtPrivateKey : Option Nat
  jwtPublicKey : Option Nat
  jwtPrivateKeyPEM : List Nat
  jwtPublicKeyPEM : List Nat
  jwtAlgorithm : String
  accessTokenExpiration : Int
  timestampExpiration : Int
  didCacheExpiration : Int
  allowedDomains : List String
  nonceValidator : Option NonceValidatorM
  resolveDIDDocument : String → Except Unit DIDWBADocument
  parseTimestamp : String → Option Int
  verifyAccessToken : String → Option String
  createAccessToken : String → Option String
  decodeSignature : String → Option ECSignature

/-- `DidWbaVerifier` (src/unnamed/part_001 lines 148-153) after construction:
the configuration with defaults applied and the nonce validator known to be
present. -/
structure DidWbaVerifier where
  jwtPrivateKey : Option Nat
  jwtPublicKey : Option Nat
  jwtAlgorithm : String
  accessTokenExpiration : Int
  timestampExpiration : Int
  didCacheExpiration : Int
  allowedDomains : List String
  nonceValidator : NonceValidatorM
  resolveDIDDocument : String → Except Unit DIDWBADocument
  parseTimestamp : String → Option Int
  verifyAccessToken : String → Option String
  createAccessToken : String → Option String
  decodeSignature : String → Option ECSignature

/-- The `config.JWTPrivateKey == nil && len(config.JWTPrivateKeyPEM) > 0`
loading step of `NewDidWbaVerifier`; `load` stands for the external PEM parser
(`LoadJWTPrivateKeyFromPEM` / `LoadJWTPublicKeyFromPEM`). -/
def resolveJWTKey (load : List Nat → Except Unit Nat) (direct : Option Nat)
    (pem : List Nat) : Except Unit (Option Nat) :=
  match direct with
  | some k => Except.ok (some k)
  | none =>
    if pem.isEmpty then Except.ok none
    else (load pem).map some

/-- `NewDidWbaVerifier` (src/unnamed/part_001 lines 155-200): refuse to
construct without a `NonceValidator`; otherwise apply the defaults for the
algorithm and the three durations, load JWT keys from PEM if needed, and build
the verifier. -/
def NewDidWbaVerifier (loadPrivatePEM loadPublicPEM : List Nat → Except Unit Nat)
    (config : DidWbaVerifierConfig) : Except AuthErrKind DidWbaVerifier :=
  match config.nonceValidator with
  | none => Except.error AuthErrKind.nonceValidatorMissing
  | some validator =>
    match resolveJWTKey loadPrivatePEM config.jwtPrivateKey config.jwtPrivateKeyPEM with
    | Except.error _ => Except.error AuthErrKind.keyLoadFailure
    | Except.ok privateKey =>
      match resolveJWTKey loadPublicPEM config.jwtPublicKey config.jwtPublicKeyPEM with
      | Except.error _ => Except.error AuthErrKind.keyLoadFailure
      | Except.ok publicKey =>
        Except.ok
          { jwtPrivateKey := privateKey
            jwtPublicKey := publicKey
            jwtAlgorithm :=
              if config.jwtAlgorithm = "" then DefaultJWTAlgorithm else config.jwtAlgorithm
            accessTokenExpiration :=
              if config.accessTokenExpiration = 0 then DefaultAccessTokenExpiration
              else config.accessTokenExpiration
            timestampExpiration :=
              if config.timestampExpiration = 0 then DefaultTimestampExpiration
              else config.timestampExpiration
            didCacheExpiration :=
              if config.didCacheExpiration = 0 then DefaultDIDCacheExpiration
              else config.didCacheExpiration
            allowedDomains := config.allowedDomains
            nonceValidator := validator
            resolveDIDDocument := config.resolveDIDDocument
            parseTimestamp := config.parseTimestamp
            verifyAccessToken := config.verifyAccessToken
            createAccessToken := config.createAccessToken
            decodeSignature := config.decodeSignature }

/-- Claim C5: construction without a nonce validator fails.  For every
configuration whose `NonceValidator` is absent — whatever all other fields
hold and whatever the PEM parsers do — `NewDidWbaVerifier` returns
`ErrNonceValidatorMissing` and no verifier is created. -/
theorem C5_construction_requires_nonce_validator
    (loadPrivatePEM loadPublicPEM : List Nat → Except Unit Nat)
    (config : DidWbaVerifierConfig) (h : config.nonceValidator = none) :
    NewDidWbaVerifier loadPrivatePEM loadPublicPEM config
      = Except.error AuthErrKind.nonceValidatorMissing := by
  unfold NewDidWbaVerifier
  rw [h]

/-- A concrete configuration without a nonce validator, for the C5 witness. -/
def configWithoutValidator : DidWbaVerifierConfig :=
  { jwtPrivateKey := some 1
    jwtPublicKey := some 2
    jwtPrivateKeyPEM := []
    jwtPublicKeyPEM := []
    jwtAlgorithm := "RS256"
    accessTokenExpiration := 3600
    timestampExpiration := 300
    didCacheExpiration := 900
    allowedDomains := []
    nonceValidator := none
    resolveDIDDocument := fun _ => Except.error ()
    parseTimestamp := fun _ => none
    verifyAccessToken := fun _ => none
    createAccessToken := fun _ => none
    decodeSignature := fun _ => none }

/-- Closed witness for C5 at a concrete configuration. -/
theorem C5_construction_requires_nonce_validator_witness :
    configWithoutValidator.nonceValidator = none ∧
    NewDidWbaVerifier (fun _ => Except.error ()) (fun _ => Except.error ())
        configWithoutValidator
      = Except.error AuthErrKind.nonceValidatorMissing :=
  ⟨rfl, C5_construction_requires_nonce_validator _ _ _ rfl⟩

/-- Runtime state of a verifier: the memory nonce validator's map and the DID
document cache (`didCache`, keyed by DID, with an `expiresAt` instant). -/
structure VerifierState where
  nonces : NonceState
  didCache : List (String × DIDWBADocument × Int)

/-- Model of `strings.TrimSpace` on strings. -/
def trimSpaceStr (s : String) : String :=
  ⟨trimChars s.data⟩

/-- Model of `strings.EqualFold` (ASCII case folding; the protocol strings
are ASCII). -/
def eqFold (a b : String) : Bool :=
  decide (a.toLower = b.toLower)

/-- `strings.TrimPrefix`: drop the prefix when present, else return the
string unchanged. -/
def trimFront (p s : String) : String :=
  if p.data.isPrefixOf s.data then ⟨s.data.drop p.data.length⟩ else s

/-- `DidWbaVerifier.ensureDomainAllowed` (src/unnamed/part_001 lines
202-214): an empty allow-list admits every domain; otherwise the domain must
match one of the (trimmed) entries case-insensitively, and failure carries
status 403. -/
def DidWbaVerifier.ensureDomainAllowed (v : DidWbaVerifier) (domain : String) :
    Option ErrorWithStatus :=
  if v.allowedDomains.isEmpty then none
  else if v.allowedDomains.any (fun allowed => eqFold (trimSpaceStr allowed) domain) then none
  else some ⟨AuthErrKind.domainNotAllowed, StatusForbidden⟩

/-- `DidWbaVerifier.verifyTimestamp` (src/unnamed/part_001 lines 329-345):
parse the RFC 3339 timestamp (failure is 400 `timestampInvalid`), then apply
the window comparisons of `verifyTimestampCore`. -/
def DidWbaVerifier.verifyTimestamp (v : DidWbaVerifier) (now : Int)
    (timestampStr : String) : Option ErrorWithStatus :=
  match v.parseTimestamp timestampStr with
  | none => some ⟨AuthErrKind.timestampInvalid, StatusBadRequest⟩
  | some requestTime => verifyTimestampCore v.timestampExpiration now requestTime

/-- `DidWbaVerifier.verifyNonce` (src/unnamed/part_001 lines 347-356): a
validator error surfaces as 500, a rejection as 401, acceptance as no
error. -/
def DidWbaVerifier.verifyNonce (v : DidWbaVerifier) (st : VerifierState) (now : Int)
    (did nonce : String) : Option ErrorWithStatus × VerifierState :=
  let r := nonceValidatorValidate v.nonceValidator st.nonces now did nonce
  (match r.1 with
   | ValidatorReply.failed =>
     some ⟨AuthErrKind.nonceValidatorFailure, StatusInternalServerError⟩
   | ValidatorReply.rejected => some ⟨AuthErrKind.nonceInvalid, StatusUnauthorized⟩
   | ValidatorReply.accepted => none,
   { st with nonces := r.2 })

/-- The cache-miss path of `resolveAndCacheDID`: call the resolver; a failure
is 401 `didResolution`; on success store the document with expiry
`now + didCacheExpiration`, replacing any stale entry for that DID. -/
def resolveFreshDID (v : DidWbaVerifier) (st : VerifierState) (now : Int)
    (did : String) : Except ErrorWithStatus DIDWBADocument × VerifierState :=
  match v.resolveDIDDocument did with
  | Except.error _ => (Except.error ⟨AuthErrKind.didResolution, StatusUnauthorized⟩, st)
  | Except.ok doc =>
    (Except.ok doc,
      { st with didCache :=
          (did, doc, now + v.didCacheExpiration) ::
            st.didCache.filter (fun e => !(e.1 = did)) })

/-- `DidWbaVerifier.resolveAndCacheDID` (src/unnamed/part_001 lines 293-327):
return a cached document while `now` is strictly before its expiry, otherwise
resolve afresh and cache (the double-checked locking collapses to one check in
this sequential model). -/
def DidWbaVerifier.resolveAndCacheDID (v : DidWbaVerifier) (st : VerifierState)
    (now : Int) (did : String) : Except ErrorWithStatus DIDWBADocument × VerifierState :=
  match st.didCache.find? (fun e => e.1 = did) with
  | some entry =>
    if now < entry.2.2 then (Except.ok entry.2.1, st)
    else resolveFreshDID v st now did
  | none => resolveFreshDID v st now did

/-- `DidWbaVerifier.verifySignature` (src/unnamed/part_001 lines 358-397):
re-parse the header, require the header DID to equal the document id, select
the verification method by fragment, build it via the factory, decode the
signature and verify it over the rebuilt payload.  Every failure yields
`false`. -/
def DidWbaVerifier.verifySignature (v : DidWbaVerifier) (authHeader : String)
    (doc : DIDWBADocument) (serviceDomain : String) : Bool :=
  match parseAuthHeader authHeader with
  | none => false
  | some parts =>
    if parts.did = doc.id then
      match selectVerificationMethodForFragment doc parts.verificationMethod with
      | Except.error _ => false
      | Except.ok (m, _) =>
        match CreateVerificationMethod m with
        | Except.error _ => false
        | Except.ok pk =>
          match v.decodeSignature parts.signature with
          | none => false
          | some signature =>
            EcdsaSecp256k1VerifySignature pk
              (authPayload.marshal
                { nonce := parts.nonce, time := parts.timestamp,
                  service := serviceDomain, did := parts.did })
              signature
    else false

/-- The result map of a successful verification: `{"did": ...}` for the
Bearer path, `{"access_token": ..., "token_type": "bearer", "did": ...}` for
the DID-WBA path. -/
structure VerifyResult where
  did : String
  accessToken : Option String
  tokenType : Option String
deriving DecidableEq, Repr

/-- `DidWbaVerifier.handleBearerAuth` (src/unnamed/part_001 lines 235-247):
strip the `Bearer ` prefix, require a configured JWT public key (500
otherwise), verify the token (401 on failure) and return the bound DID.  The
domain argument of the verifier is not consulted on this path. -/
def DidWbaVerifier.handleBearerAuth (v : DidWbaVerifier) (authorization : String) :
    Except ErrorWithStatus VerifyResult :=
  let tokenString := trimFront "Bearer " authorization
  match v.jwtPublicKey with
  | none => Except.error ⟨AuthErrKind.jwtConfigMissing, StatusInternalServerError⟩
  | some _ =>
    match v.verifyAccessToken tokenString with
    | none => Except.error ⟨AuthErrKind.invalidToken, StatusUnauthorized⟩
    | some did => Except.ok ⟨did, none, none⟩

/-- `DidWbaVerifier.handleDidAuth` (src/unnamed/part_001 lines 249-291):
domain allow-list, header parse, timestamp window, nonce validation, DID
resolution, signature verification, then access-token issuance. -/
def DidWbaVerifier.handleDidAuth (v : DidWbaVerifier) (st : VerifierState) (now : Int)
    (authorization domain : String) :
    Except ErrorWithStatus VerifyResult × VerifierState :=
  match v.ensureDomainAllowed domain with
  | some e => (Except.error e, st)
  | none =>
  match parseAuthHeader authorization with
  | none => (Except.error ⟨AuthErrKind.invalidAuthHeader, StatusUnauthorized⟩, st)
  | some parts =>
  match v.verifyTimestamp now parts.timestamp with
  | some e => (Except.error e, st)
  | none =>
  let nr := v.verifyNonce st now parts.did parts.nonce
  match nr.1 with
  | some e => (Except.error e, nr.2)
  | none =>
  match v.resolveAndCacheDID nr.2 now parts.did with
  | (Except.error e, st2) => (Except.error e, st2)
  | (Except.ok doc, st2) =>
    if v.verifySignature authorization doc domain then
      match v.jwtPrivateKey with
      | none => (Except.error ⟨AuthErrKind.jwtConfigMissing, StatusInternalServerError⟩, st2)
      | some _ =>
        match v.createAccessToken parts.did with
        | none => (Except.error ⟨AuthErrKind.tokenCreation, StatusInternalServerError⟩, st2)
        | some token => (Except.ok ⟨parts.did, some token, some "bearer"⟩, st2)
    else (Except.error ⟨AuthErrKind.invalidSignature, StatusForbidden⟩, st2)

/-- `DidWbaVerifier.VerifyAuthHeaderContext` (src/unnamed/part_001 lines
223-233): empty header is 401; a `Bearer `-prefixed header goes to the Bearer
path; anything else goes to the DID-WBA path. -/
def VerifyAuthHeaderContext (v : DidWbaVerifier) (st : VerifierState) (now : Int)
    (authorization domain : String) :
    Except ErrorWithStatus VerifyResult × VerifierState :=
  if authorization = "" then
    (Except.error ⟨AuthErrKind.missingAuthHeader, StatusUnauthorized⟩, st)
  else if "Bearer ".data.isPrefixOf authorization.data then
    (v.handleBearerAuth authorization, st)
  else
    v.handleDidAuth st now authorization domain

/-- Claim C6: on the DID-WBA path, once the domain check and header parse
succeed and the timestamp string parses to `requestTime`, each failure carries
its mapped HTTP status: a future timestamp (beyond the one-minute tolerance)
yields 400, an expired timestamp 401, a nonce the validator rejects (false
with no error) 401, and a validator error 500. -/
theorem C6_did_auth_error_statuses (v : DidWbaVerifier) (st : VerifierState)
    (now requestTime : Int) (authorization domain : String) (parts : AuthHeader)
    (f : String → String → ValidatorReply)
    (hdom : v.ensureDomainAllowed domain = none)
    (hparse : parseAuthHeader authorization = some parts)
    (hpt : v.parseTimestamp parts.timestamp = some requestTime)
    (hval : v.nonceValidator = NonceValidatorM.external f) :
    (requestTime > now + DefaultTimestampTolerance →
      (v.handleDidAuth st now authorization domain).1
        = Except.error ⟨AuthErrKind.timestampFuture, 400⟩) ∧
    (¬ requestTime > now + DefaultTimestampTolerance →
      now - requestTime > v.timestampExpiration →
      (v.handleDidAuth st now authorization domain).1
        = Except.error ⟨AuthErrKind.timestampExpired, 401⟩) ∧
    (¬ requestTime > now + DefaultTimestampTolerance →
      ¬ now - requestTime > v.timestampExpiration →
      f parts.did parts.nonce = ValidatorReply.rejected →
      (v.handleDidAuth st now authorization domain).1
        = Except.error ⟨AuthErrKind.nonceInvalid, 401⟩) ∧
    (¬ requestTime > now + DefaultTimestampTolerance →
      ¬ now - requestTime > v.timestampExpiration →
      f parts.did parts.nonce = ValidatorReply.failed →
      (v.handleDidAuth st now authorization domain).1
        = Except.error ⟨AuthErrKind.nonceValidatorFailure, 500⟩) := by
  refine ⟨?_, ?_, ?_, ?_⟩
  · intro hfut
    simp only [DidWbaVerifier.handleDidAuth, hdom, hparse,
      DidWbaVerifier.verifyTimestamp, hpt, verifyTimestampCore, if_pos hfut]
    rfl
  · intro hnofut hexp
    simp only [DidWbaVerifier.handleDidAuth, hdom, hparse,
      DidWbaVerifier.verifyTimestamp, hpt, verifyTimestampCore, if_neg hnofut, if_pos hexp]
    rfl
  · intro hnofut hnoexp hrej
    simp only [DidWbaVerifier.handleDidAuth, hdom, hparse,
      DidWbaVerifier.verifyTimestamp, hpt, verifyTimestampCore, if_neg hnofut,
      if_neg hnoexp, DidWbaVerifier.verifyNonce, nonceValidatorValidate, hval, hrej]
    rfl
  · intro hnofut hnoexp hfail
    simp only [DidWbaVerifier.handleDidAuth, hdom, hparse,
      DidWbaVerifier.verifyTimestamp, hpt, verifyTimestampCore, if_neg hnofut,
      if_neg hnoexp, DidWbaVerifier.verifyNonce, nonceValidatorValidate, hval, hfail]
    rfl

/-- A concrete verifier whose nonce validator is an injected (external)
implementation with the given reply function, for witnesses. -/
def externalVerifier (f : String → String → ValidatorReply) : DidWbaVerifier :=
  { jwtPrivateKey := some 1
    jwtPublicKey := some 2
    jwtAlgorithm := "RS256"
    accessTokenExpiration := 3600
    timestampExpiration := 300
    didCacheExpiration := 900
    allowedDomains := []
    nonceValidator := NonceValidatorM.external f
    resolveDIDDocument := fun _ => Except.error ()
    parseTimestamp := fun _ => some 100
    verifyAccessToken := fun _ => some "did:wba:client.example"
    createAccessToken := fun _ => some "jwt-token"
    decodeSignature := fun _ => none }

/-- A concrete well-formed header string for witnesses. -/
def sampleHeaderString : String :=
  (AuthHeader.mk "did:wba:client.example" "nonce-1" "2024-01-01T00:00:00Z"
    "key-1" "c2ln").headerString

set_option maxRecDepth 4000 in
/-- Closed witness for C6 at concrete inputs (validator rejects the nonce). -/
theorem C6_did_auth_error_statuses_witness :
    ((externalVerifier fun _ _ => ValidatorReply.rejected).ensureDomainAllowed
        "client.example" = none ∧
      parseAuthHeader sampleHeaderString
        = some (AuthHeader.mk "did:wba:client.example" "nonce-1"
            "2024-01-01T00:00:00Z" "key-1" "c2ln") ∧
      (externalVerifier fun _ _ => ValidatorReply.rejected).parseTimestamp
        "2024-01-01T00:00:00Z" = some 100) ∧
    (¬ (100 : Int) > 120 + DefaultTimestampTolerance →
      ¬ (120 : Int) - 100 >
        (externalVerifier fun _ _ => ValidatorReply.rejected).timestampExpiration →
      (fun (_ _ : String) => ValidatorReply.rejected) "did:wba:client.example" "nonce-1"
        = ValidatorReply.rejected →
      ((externalVerifier fun _ _ => ValidatorReply.rejected).handleDidAuth
          ⟨[], []⟩ 120 sampleHeaderString "client.example").1
        = Except.error ⟨AuthErrKind.nonceInvalid, 401⟩) :=
  ⟨⟨rfl, by decide, rfl⟩,
    (C6_did_auth_error_statuses (externalVerifier fun _ _ => ValidatorReply.rejected)
      ⟨[], []⟩ 120 100 sampleHeaderString "client.example"
      (AuthHeader.mk "did:wba:client.example" "nonce-1" "2024-01-01T00:00:00Z"
        "key-1" "c2ln")
      (fun _ _ => ValidatorReply.rejected) rfl (by decide) rfl rfl).2.2.1⟩

/-- Claim C9: the Bearer path never consults the domain.  For every
authorization string beginning with `Bearer `, the verifier's outcome is
identical for any two domain arguments; moreover with a configured JWT public
key and a token the JWT library accepts, the request is accepted for every
domain — in particular for one outside a non-empty allow-list. -/
theorem C9_bearer_path_ignores_domain (v : DidWbaVerifier) (st : VerifierState)
    (now : Int) (authorization : String)
    (hb : "Bearer ".data.isPrefixOf authorization.data = true) :
    (∀ d1 d2, VerifyAuthHeaderContext v st now authorization d1
      = VerifyAuthHeaderContext v st now authorization d2) ∧
    (∀ k did domain, v.jwtPublicKey = some k →
      v.verifyAccessToken (trimFront "Bearer " authorization) = some did →
      (VerifyAuthHeaderContext v st now authorization domain).1
        = Except.ok ⟨did, none, none⟩) := by
  have hne : ¬ (authorization = "") := by
    intro h0
    subst h0
    exact absurd hb (by decide)
  constructor
  · intro d1 d2
    simp [VerifyAuthHeaderContext, hne, hb]
  · intro k did domain hk htok
    simp [VerifyAuthHeaderContext, hne, hb, DidWbaVerifier.handleBearerAuth, hk, htok]

/-- Closed witness for C9: a Bearer request is accepted under a verifier whose
allow-list contains only another domain. -/
theorem C9_bearer_path_ignores_domain_witness :
    ("Bearer ".data.isPrefixOf ("Bearer some-jwt" : String).data = true) ∧
    (VerifyAuthHeaderContext
        { externalVerifier (fun _ _ => ValidatorReply.accepted) with
            allowedDomains := ["example.com"] }
        ⟨[], []⟩ 0 "Bearer some-jwt" "a.example"
      = VerifyAuthHeaderContext
        { externalVerifier (fun _ _ => ValidatorReply.accepted) with
            allowedDomains := ["example.com"] }
        ⟨[], []⟩ 0 "Bearer some-jwt" "b.example") ∧
    ((VerifyAuthHeaderContext
        { externalVerifier (fun _ _ => ValidatorReply.accepted) with
            allowedDomains := ["example.com"] }
        ⟨[], []⟩ 0 "Bearer some-jwt" "intruder.example").1
      = Except.ok ⟨"did:wba:client.example", none, none⟩) :=
  ⟨by decide,
    (C9_bearer_path_ignores_domain _ ⟨[], []⟩ 0 "Bearer some-jwt" (by decide)).1
      "a.example" "b.example",
    (C9_bearer_path_ignores_domain _ ⟨[], []⟩ 0 "Bearer some-jwt" (by decide)).2
      2 "did:wba:client.example" "intruder.example" rfl rfl⟩

theorem resolveAndCacheDID_nonces (v : DidWbaVerifier) (s : VerifierState) (now : Int)
    (did : String) : (v.resolveAndCacheDID s now did).2.nonces = s.nonces := by
  unfold DidWbaVerifier.resolveAndCacheDID resolveFreshDID
  split
  · split
    · rfl
    · split <;> rfl
  · split <;> rfl

/-- Claim C10: on the DID-WBA path with the in-memory nonce validator, the
nonce is recorded before DID resolution and signature verification run.
Whatever those later steps do, the verifier's final state contains the
`did:nonce` entry; in particular when resolution fails the call returns the
401 resolution error with the nonce already consumed, and re-submitting the
identical header within the nonce TTL is rejected as a replay (401
`nonceInvalid`) rather than re-evaluated. -/
theorem C10_nonce_consumed_before_resolution (v : DidWbaVerifier) (st : VerifierState)
    (now exp : Int) (authorization domain : String) (parts : AuthHeader)
    (hval : v.nonceValidator = NonceValidatorM.memory exp)
    (hdom : v.ensureDomainAllowed domain = none)
    (hparse : parseAuthHeader authorization = some parts)
    (hts1 : v.verifyTimestamp now parts.timestamp = none)
    (hfresh : (memoryNonceValidate exp st.nonces now parts.did parts.nonce).1 = true) :
    (v.handleDidAuth st now authorization domain).2.nonces
      = (parts.did ++ ":" ++ parts.nonce, now)
          :: st.nonces.filter (fun e => !(now - e.2 > exp)) ∧
    (v.resolveDIDDocument parts.did = Except.error () →
      st.didCache.find? (fun e => e.1 = parts.did) = none →
      (v.handleDidAuth st now authorization domain).1
        = Except.error ⟨AuthErrKind.didResolution, 401⟩) ∧
    (∀ now₂, v.verifyTimestamp now₂ parts.timestamp = none →
      now₂ - now ≤ exp →
      (v.handleDidAuth (v.handleDidAuth st now authorization domain).2
          now₂ authorization domain).1
        = Except.error ⟨AuthErrKind.nonceInvalid, 401⟩) := by
  have hmv : memoryNonceValidate exp st.nonces now parts.did parts.nonce
      = (true, (parts.did ++ ":" ++ parts.nonce, now)
          :: st.nonces.filter (fun e => !(now - e.2 > exp))) := by
    by_cases hany : (st.nonces.filter (fun e => !(now - e.2 > exp))).any
        (fun e => e.1 = parts.did ++ ":" ++ parts.nonce)
    · exfalso
      simp [memoryNonceValidate, hany] at hfresh
    · simp [memoryNonceValidate, hany]
  have hvn : v.verifyNonce st now parts.did parts.nonce
      = (none, ⟨(parts.did ++ ":" ++ parts.nonce, now)
          :: st.nonces.filter (fun e => !(now - e.2 > exp)), st.didCache⟩) := by
    simp [DidWbaVerifier.verifyNonce, nonceValidatorValidate, hval, hmv]
  have h1 : (v.handleDidAuth st now authorization domain).2.nonces
      = (parts.did ++ ":" ++ parts.nonce, now)
          :: st.nonces.filter (fun e => !(now - e.2 > exp)) := by
    simp only [DidWbaVerifier.handleDidAuth, hdom, hparse, hts1, hvn]
    rcases hres : v.resolveAndCacheDID
        ⟨(parts.did ++ ":" ++ parts.nonce, now)
          :: st.nonces.filter (fun e => !(now - e.2 > exp)), st.didCache⟩ now parts.did
      with ⟨res, st2⟩
    have hst2 : st2.nonces = (parts.did ++ ":" ++ parts.nonce, now)
        :: st.nonces.filter (fun e => !(now - e.2 > exp)) := by
      have hpres := resolveAndCacheDID_nonces v
        ⟨(parts.did ++ ":" ++ parts.nonce, now)
          :: st.nonces.filter (fun e => !(now - e.2 > exp)), st.didCache⟩ now parts.did
      rw [hres] at hpres
      exact hpres
    cases res with
    | error e => exact hst2
    | ok doc =>
      by_cases hsig : v.verifySignature authorization doc domain = true
      · simp only [if_pos hsig]
        cases v.jwtPrivateKey with
        | none => exact hst2
        | some k =>
          cases v.createAccessToken parts.did with
          | none => exact hst2
          | some token => exact hst2
      · simp only [if_neg hsig]
        exact hst2
  refine ⟨h1, ?_, ?_⟩
  · intro hres hcache
    simp only [DidWbaVerifier.handleDidAuth, hdom, hparse, hts1, hvn]
    simp [DidWbaVerifier.resolveAndCacheDID, resolveFreshDID, hres, hcache,
      StatusUnauthorized]
  · intro now₂ hts2 httl
    obtain ⟨S1, hS1⟩ : ∃ S1, (v.handleDidAuth st now authorization domain).2 = S1 :=
      ⟨_, rfl⟩
    rw [hS1] at h1 ⊢
    have hreplay : (memoryNonceValidate exp S1.nonces now₂ parts.did parts.nonce).1
        = false := by
      rw [h1]
      have hkeep : ¬ (now₂ - now > exp) := by omega
      simp [memoryNonceValidate, List.filter_cons, List.any_cons, hkeep]
    simp [DidWbaVerifier.handleDidAuth, hdom, hparse, hts2, DidWbaVerifier.verifyNonce,
      nonceValidatorValidate, hval, hreplay, StatusUnauthorized]

/-- A concrete verifier using the in-memory nonce validator, whose DID
resolution always fails, for the C10 witness. -/
def memoryVerifier : DidWbaVerifier :=
  { jwtPrivateKey := some 1
    jwtPublicKey := some 2
    jwtAlgorithm := "RS256"
    accessTokenExpiration := 3600
    timestampExpiration := 300
    didCacheExpiration := 900
    allowedDomains := []
    nonceValidator := NonceValidatorM.memory 360
    resolveDIDDocument := fun _ => Except.error ()
    parseTimestamp := fun _ => some 100
    verifyAccessToken := fun _ => none
    createAccessToken := fun _ => some "jwt-token"
    decodeSignature := fun _ => none }

set_option maxRecDepth 4000 in
/-- Closed witness for C10 at concrete inputs: the failing resolution leaves
the nonce consumed and the identical header replayed within the TTL is
rejected with 401. -/
theorem C10_nonce_consumed_before_resolution_witness :
    (memoryVerifier.nonceValidator = NonceValidatorM.memory 360 ∧
      memoryVerifier.ensureDomainAllowed "client.example" = none ∧
      parseAuthHeader sampleHeaderString
        = some (AuthHeader.mk "did:wba:client.example" "nonce-1"
            "2024-01-01T00:00:00Z" "key-1" "c2ln") ∧
      memoryVerifier.verifyTimestamp 120 "2024-01-01T00:00:00Z" = none ∧
      (memoryNonceValidate 360 ([] : NonceState) 120 "did:wba:client.example"
        "nonce-1").1 = true) ∧
    ((memoryVerifier.handleDidAuth ⟨[], []⟩ 120 sampleHeaderString
        "client.example").2.nonces
      = ("did:wba:client.example" ++ ":" ++ "nonce-1", 120)
          :: ([] : NonceState).filter (fun e => !((120 : Int) - e.2 > 360)) ∧
    (memoryVerifier.resolveDIDDocument "did:wba:client.example" = Except.error () →
      ([] : List (String × DIDWBADocument × Int)).find?
          (fun e => e.1 = "did:wba:client.example") = none →
      (memoryVerifier.handleDidAuth ⟨[], []⟩ 120 sampleHeaderString
          "client.example").1
        = Except.error ⟨AuthErrKind.didResolution, 401⟩) ∧
    (∀ now₂, memoryVerifier.verifyTimestamp now₂ "2024-01-01T00:00:00Z" = none →
      now₂ - 120 ≤ 360 →
      (memoryVerifier.handleDidAuth
          (memoryVerifier.handleDidAuth ⟨[], []⟩ 120 sampleHeaderString
            "client.example").2
          now₂ sampleHeaderString "client.example").1
        = Except.error ⟨AuthErrKind.nonceInvalid, 401⟩)) :=
  ⟨⟨rfl, rfl, by decide, by decide, by decide⟩,
    C10_nonce_consumed_before_resolution memoryVerifier ⟨[], []⟩ 120 360
      sampleHeaderString "client.example"
      (AuthHeader.mk "did:wba:client.example" "nonce-1" "2024-01-01T00:00:00Z"
        "key-1" "c2ln")
      rfl rfl (by decide) (by decide) (by decide)⟩
